import Mathlib

/-!
Verification of the session and reminder core of the Discord bot in
`src/main.py` against its specification.  The Python source is shallowly
embedded: each global mutable map becomes an explicit value threaded through
pure functions, timestamps become `Int` (seconds), and fallible platform
calls become explicit environment parameters.
-/

namespace BotCore

/-! ## Rate Limiter (src/main.py lines 189-195)

The Python code is:

    current_time = asyncio.get_event_loop().time()
    timestamps = bot.ask_rate_limit[user_id]
    timestamps.append(current_time)
    bot.ask_rate_limit[user_id] = [t for t in timestamps if current_time - t <= 60]
    if len(timestamps) > 5:
        ... reject ...

Note the aliasing: `timestamps` is the stored list object; `append` mutates
it in place, then the dict entry is rebound to a freshly filtered list.  The
local `timestamps` still refers to the unfiltered appended list, so the
`len(timestamps) > 5` rejection test sees the window *before* old entries
are discarded, while the stored window is the filtered one. -/

structure RateResult where
  admitted : Bool
  window : List Int
  deriving DecidableEq, Repr

/-- One admission check: `stored` is the user's window as left by the
previous check, `now` the current time.  Mirrors lines 189-195 including the
aliasing described above. -/
def askRateCheck (stored : List Int) (now : Int) : RateResult :=
  let timestamps := stored ++ [now]
  { admitted := !(decide (timestamps.length > 5)),
    window := timestamps.filter (fun t => decide (now - t ≤ 60)) }

/-- Run a sequence of admission checks for one user starting from window `w`,
returning the admission verdict of each call in order. -/
def askSimAux (w : List Int) : List Int → List Bool
  | [] => []
  | t :: ts => (askRateCheck w t).admitted :: askSimAux (askRateCheck w t).window ts

/-- Admission verdicts for a sequence of calls starting from the empty window
(a user not seen before). -/
def askSim (ts : List Int) : List Bool := askSimAux [] ts

/-- The admission verdict depends only on the number of previously stored
entries: the check runs before discarding. -/
theorem askRateCheck_admitted (stored : List Int) (now : Int) :
    (askRateCheck stored now).admitted = decide (stored.length < 5) := by
  simp only [askRateCheck, List.length_append, List.length_singleton]
  rw [← decide_not, decide_eq_decide]
  omega

/-- When every stored entry is still within 60 seconds of `now`, the filter
discards nothing. -/
theorem askRateCheck_window_full (stored : List Int) (now : Int)
    (h : ∀ t ∈ stored, now - t ≤ 60) :
    (askRateCheck stored now).window = stored ++ [now] := by
  simp only [askRateCheck]
  rw [List.filter_eq_self]
  intro t ht
  simp only [decide_eq_true_eq]
  rcases List.mem_append.mp ht with h' | h'
  · exact h t h'
  · simp only [List.mem_singleton] at h'
    omega

/-! ## C1 theorems -/

/-- Claim C1, counterexample.  Five admitted calls at time 0 leave the stored
window `[0,0,0,0,0]`.  A sixth call at time 100 — more than 60 seconds after
every recorded entry, so that after discarding only the new entry itself
remains (1 ≤ 5) — is nevertheless rejected, because the rejection test runs
on the appended list before discarding.  This refutes both "rejects exactly
when more than 5 entries remain after discarding" and "once 60 seconds have
elapsed since the earliest recorded call, admission resumes". -/
theorem c1_counterexample :
    askSim [0, 0, 0, 0, 0, 100] = [true, true, true, true, true, false] ∧
    (([0, 0, 0, 0, 0, 100] : List Int).filter
      (fun t => decide ((100 : Int) - t ≤ 60))).length ≤ 5 := by
  constructor
  · rfl
  · decide

/-- Claim C1, amended.  Each admission check at time `now` appends `now` to
the user's window and stores the entries within 60 seconds of `now`, but the
rejection test runs on the appended window *before* discarding: a call is
admitted exactly when fewer than 5 entries were stored.  Consequently (a) for
any six calls within a 60-second span starting from an empty window, the
first five are admitted and the sixth rejected; and (b) once more than 60
seconds have elapsed since every recorded entry, the next check prunes the
window down to the new entry alone, so the call after that one is admitted:
admission resumes one call after the window goes stale, not at the first
check after it. -/
theorem c1_amended :
    (∀ (stored : List Int) (now : Int),
      (askRateCheck stored now).admitted = decide (stored.length < 5) ∧
      (askRateCheck stored now).window =
        (stored ++ [now]).filter (fun t => decide (now - t ≤ 60))) ∧
    (∀ t1 t2 t3 t4 t5 t6 : Int, t1 ≤ t2 → t2 ≤ t3 → t3 ≤ t4 → t4 ≤ t5 →
      t5 ≤ t6 → t6 - t1 ≤ 60 →
      askSim [t1, t2, t3, t4, t5, t6] = [true, true, true, true, true, false]) ∧
    (∀ (stored : List Int) (now now₂ : Int), (∀ t ∈ stored, now - t > 60) →
      (askRateCheck (askRateCheck stored now).window now₂).admitted = true) := by
  refine ⟨fun stored now => ⟨askRateCheck_admitted stored now, rfl⟩,
    fun t1 t2 t3 t4 t5 t6 h12 h23 h34 h45 h56 hspan => ?_,
    fun stored now now₂ hold => ?_⟩
  · have hw1 : (askRateCheck [] t1).window = [t1] :=
      askRateCheck_window_full [] t1 (by intro t ht; cases ht)
    have hw2 : (askRateCheck [t1] t2).window = [t1, t2] :=
      askRateCheck_window_full [t1] t2 (by
        intro t ht; simp at ht; omega)
    have hw3 : (askRateCheck [t1, t2] t3).window = [t1, t2, t3] :=
      askRateCheck_window_full [t1, t2] t3 (by
        intro t ht; simp at ht
        rcases ht with h | h <;> omega)
    have hw4 : (askRateCheck [t1, t2, t3] t4).window = [t1, t2, t3, t4] :=
      askRateCheck_window_full [t1, t2, t3] t4 (by
        intro t ht; simp at ht
        rcases ht with h | h | h <;> omega)
    have hw5 : (askRateCheck [t1, t2, t3, t4] t5).window = [t1, t2, t3, t4, t5] :=
      askRateCheck_window_full [t1, t2, t3, t4] t5 (by
        intro t ht; simp at ht
        rcases ht with h | h | h | h <;> omega)
    simp only [askSim, askSimAux, askRateCheck_admitted, hw1, hw2, hw3, hw4, hw5]
    norm_num
  · have hw : (askRateCheck stored now).window = [now] := by
      simp only [askRateCheck, List.filter_append]
      rw [List.filter_eq_nil_iff.mpr, List.nil_append]
      · simp
      · intro t ht
        simp only [decide_eq_true_eq]
        have := hold t ht
        omega
    rw [hw]
    rfl

/-- Claim C1 amended, witness.  Instantiates every hypothesis concretely:
five entries stored and a stale-window resumption at times 0 and 100/101. -/
theorem c1_amended_witness :
    ((askRateCheck [0, 0, 0, 0, 0] 100).admitted =
      decide (([0, 0, 0, 0, 0] : List Int).length < 5) ∧
      (askRateCheck [0, 0, 0, 0, 0] 100).window =
        (([0, 0, 0, 0, 0] : List Int) ++ [100]).filter
          (fun t => decide ((100 : Int) - t ≤ 60))) ∧
    askSim [0, 10, 20, 30, 40, 50] = [true, true, true, true, true, false] ∧
    (askRateCheck (askRateCheck [0, 0, 0, 0, 0] 100).window 101).admitted = true :=
  ⟨c1_amended.1 [0, 0, 0, 0, 0] 100,
   c1_amended.2.1 0 10 20 30 40 50 (by decide) (by decide) (by decide) (by decide)
     (by decide) (by decide),
   c1_amended.2.2 [0, 0, 0, 0, 0] 100 101 (by decide)⟩

/-! ## Conversation Store (src/main.py lines 229-240, 301-313, 319-329)

The durable tier is the MongoDB collection `conversations` (documents
`{user_id, prompt, response, timestamp}`); the in-memory tier is the list
`bot.conversations[user_id]` of `{"user": ..., "assistant": ...}` dicts.
A `none` collection models the startup failure path (lines 75-79), where
every Mongo access is guarded by `if conversations_collection:`. -/

/-- A document of the `conversations` collection. -/
structure Doc where
  user_id : Nat
  prompt : String
  response : String
  timestamp : Int
  deriving DecidableEq, Repr

/-- An entry of the in-memory cache `bot.conversations[user_id]`. -/
structure CTurn where
  user : String
  assistant : String
  deriving DecidableEq, Repr

/-- How hydration converts a stored document to a cache entry
(lines 235-238). -/
def toCTurn (d : Doc) : CTurn := { user := d.prompt, assistant := d.response }

/-- Insert a document into a list sorted by non-increasing timestamp. -/
def insertDesc (d : Doc) : List Doc → List Doc
  | [] => [d]
  | e :: es => if d.timestamp ≤ e.timestamp then e :: insertDesc d es else d :: e :: es

/-- `.sort("timestamp", -1)`: order by timestamp, newest first. -/
def sortDesc : List Doc → List Doc
  | [] => []
  | d :: ds => insertDesc d (sortDesc ds)

/-- Python `xs[-5:]` and friends: the last `n` elements of a list. -/
def takeLast (n : Nat) (l : List CTurn) : List CTurn := l.drop (l.length - n)

/-- The cache entries produced by hydration (lines 233-239):
`find({"user_id": uid}).sort("timestamp", -1).limit(5)`, each document
appended to the empty cache, then the cache reversed. -/
def hydrateDocs (store : List Doc) (uid : Nat) : List CTurn :=
  (((sortDesc (store.filter (fun d => d.user_id == uid))).take 5).map toCTurn).reverse

/-- Result of one history access inside `/ask` (lines 230-240). -/
structure HistAccess where
  history : List CTurn
  cache : List CTurn
  queried : Bool
  deriving DecidableEq, Repr

/-- One history access (lines 230-240): `history = []`; if the collection is
available and the user's cache is empty, hydrate it from the durable store
(`queried` records whether the `find` ran); then `history` is the last five
cache entries.  When the collection is unavailable, `history` stays `[]`. -/
def loadHistory (coll : Option (List Doc)) (cache : List CTurn) (uid : Nat) :
    HistAccess :=
  match coll with
  | none => { history := [], cache := cache, queried := false }
  | some store =>
    if cache.isEmpty then
      { history := takeLast 5 (hydrateDocs store uid),
        cache := hydrateDocs store uid, queried := true }
    else
      { history := takeLast 5 cache, cache := cache, queried := false }

/-- The post-success write-back (lines 301-313): push the turn to the tail of
the in-memory list (no trimming occurs in the source), and insert the full
document into the durable store when it is available. -/
def appendTurn (coll : Option (List Doc)) (cache : List CTurn) (uid : Nat)
    (prompt response : String) (now : Int) : List CTurn × Option (List Doc) :=
  (cache ++ [{ user := prompt, assistant := response }],
   coll.map (fun s =>
     s ++ [{ user_id := uid, prompt := prompt, response := response, timestamp := now }]))

/-- `/clearhistory` (lines 319-329): clear the user's in-memory list, and
`delete_many({"user_id": uid})` when the collection is available. -/
def clearHistory (coll : Option (List Doc)) (cache : List CTurn) (uid : Nat) :
    List CTurn × Option (List Doc) :=
  ([], coll.map (fun s => s.filter (fun d => !(d.user_id == uid))))

/-! ### Sorting lemmas -/

/-- Inserting a document whose timestamp is a lower bound of the list puts it
at the end. -/
theorem insertDesc_min (d : Doc) (l : List Doc)
    (h : ∀ e ∈ l, d.timestamp ≤ e.timestamp) :
    insertDesc d l = l ++ [d] := by
  induction l with
  | nil => rfl
  | cons e es ih =>
    simp only [insertDesc, if_pos (h e (List.mem_cons_self e es)), List.cons_append,
      List.cons.injEq, true_and]
    exact ih fun x hx => h x (List.mem_cons_of_mem e hx)

/-- Sorting a strictly-ascending list by descending timestamp reverses it. -/
theorem sortDesc_of_ascending (l : List Doc)
    (h : l.Pairwise (fun a b => a.timestamp < b.timestamp)) :
    sortDesc l = l.reverse := by
  induction l with
  | nil => rfl
  | cons d ds ih =>
    rcases List.pairwise_cons.mp h with ⟨hd, hds⟩
    simp only [sortDesc, ih hds, List.reverse_cons]
    exact insertDesc_min d ds.reverse fun e he =>
      le_of_lt (hd e (List.mem_reverse.mp he))

/-! ## C4: hydration returns the most recent five turns, oldest first -/

/-- Claim C4.  Given a durable store holding exactly the turns T1..T8 of one
user, with strictly increasing creation timestamps (T8 newest) and an empty
in-memory cache, the first history access queries the durable store and
returns exactly [T4, T5, T6, T7, T8] in chronological order: the most recent
five by creation time, reversed into chronological order. -/
theorem c4_hydration (uid : Nat) (d1 d2 d3 d4 d5 d6 d7 d8 : Doc)
    (hU : ∀ d ∈ [d1, d2, d3, d4, d5, d6, d7, d8], d.user_id = uid)
    (hts : List.Pairwise (fun a b : Doc => a.timestamp < b.timestamp)
      [d1, d2, d3, d4, d5, d6, d7, d8]) :
    (loadHistory (some [d1, d2, d3, d4, d5, d6, d7, d8]) [] uid).history =
      [toCTurn d4, toCTurn d5, toCTurn d6, toCTurn d7, toCTurn d8] ∧
    (loadHistory (some [d1, d2, d3, d4, d5, d6, d7, d8]) [] uid).queried = true := by
  have hfilter : ([d1, d2, d3, d4, d5, d6, d7, d8].filter
      (fun d => d.user_id == uid)) = [d1, d2, d3, d4, d5, d6, d7, d8] := by
    rw [List.filter_eq_self]
    intro d hd
    exact beq_iff_eq.mpr (hU d hd)
  have hhyd : hydrateDocs [d1, d2, d3, d4, d5, d6, d7, d8] uid =
      [toCTurn d4, toCTurn d5, toCTurn d6, toCTurn d7, toCTurn d8] := by
    simp only [hydrateDocs, hfilter, sortDesc_of_ascending _ hts]
    rfl
  refine ⟨?_, rfl⟩
  simp only [loadHistory, List.isEmpty_nil, if_pos, hhyd]
  rfl

/-- Claim C4, witness: eight concrete turns with timestamps 1..8. -/
theorem c4_hydration_witness :
    (loadHistory (some [⟨1, "p1", "r1", 1⟩, ⟨1, "p2", "r2", 2⟩, ⟨1, "p3", "r3", 3⟩,
        ⟨1, "p4", "r4", 4⟩, ⟨1, "p5", "r5", 5⟩, ⟨1, "p6", "r6", 6⟩,
        ⟨1, "p7", "r7", 7⟩, ⟨1, "p8", "r8", 8⟩]) [] 1).history =
      [⟨"p4", "r4"⟩, ⟨"p5", "r5"⟩, ⟨"p6", "r6"⟩, ⟨"p7", "r7"⟩, ⟨"p8", "r8"⟩] ∧
    (loadHistory (some [⟨1, "p1", "r1", 1⟩, ⟨1, "p2", "r2", 2⟩, ⟨1, "p3", "r3", 3⟩,
        ⟨1, "p4", "r4", 4⟩, ⟨1, "p5", "r5", 5⟩, ⟨1, "p6", "r6", 6⟩,
        ⟨1, "p7", "r7", 7⟩, ⟨1, "p8", "r8", 8⟩]) [] 1).queried = true :=
  c4_hydration 1 ⟨1, "p1", "r1", 1⟩ ⟨1, "p2", "r2", 2⟩ ⟨1, "p3", "r3", 3⟩
    ⟨1, "p4", "r4", 4⟩ ⟨1, "p5", "r5", 5⟩ ⟨1, "p6", "r6", 6⟩
    ⟨1, "p7", "r7", 7⟩ ⟨1, "p8", "r8", 8⟩ (by decide) (by decide)

/-! ## C5: the in-memory cache is never trimmed on append -/

/-- Claim C5, counterexample.  Appending a completed turn to a cache that
already holds five turns leaves six entries in the in-memory list: the code
(lines 301-305) pushes to the tail and never trims the head, so the cache is
not capped at the 5 most recent turns. -/
theorem c5_counterexample :
    ((appendTurn none [⟨"p1", "r1"⟩, ⟨"p2", "r2"⟩, ⟨"p3", "r3"⟩, ⟨"p4", "r4"⟩,
        ⟨"p5", "r5"⟩] 1 "p6" "r6" 0).1).length = 6 := by
  rfl

/-- Claim C5, amended.  Append pushes the turn to the tail of the in-memory
list and never trims: the list grows by one on every append, without bound.
The "5 most recent turns" bound applies only to the history slice read at
prompt-build time (the Python `[-5:]`), which does end with the just-appended
turn, preserves order and has length at most 5; and the append independently
writes the full turn document to the durable store when it is available. -/
theorem c5_amended (coll : Option (List Doc)) (cache : List CTurn) (uid : Nat)
    (p r : String) (now : Int) :
    (appendTurn coll cache uid p r now).1 = cache ++ [{ user := p, assistant := r }] ∧
    (appendTurn coll cache uid p r now).1.length = cache.length + 1 ∧
    takeLast 5 (appendTurn coll cache uid p r now).1 =
      takeLast 4 cache ++ [{ user := p, assistant := r }] ∧
    (takeLast 5 (appendTurn coll cache uid p r now).1).length ≤ 5 ∧
    (appendTurn coll cache uid p r now).2 = coll.map (fun s =>
      s ++ [{ user_id := uid, prompt := p, response := r, timestamp := now }]) := by
  refine ⟨rfl, by simp [appendTurn], ?_, ?_, rfl⟩
  · simp only [appendTurn, takeLast, List.length_append, List.length_singleton]
    rw [List.drop_append_of_le_length (by omega)]
    have h4 : cache.length + 1 - 5 = cache.length - 4 := by omega
    rw [h4]
  · simp only [appendTurn, takeLast, List.length_drop, List.length_append,
      List.length_singleton]
    omega

/-! ## C6: the hydration guard is cache-emptiness, not a lazy-init flag -/

/-- Claim C6, counterexample.  With a reachable but empty durable store, the
first history access queries the store (hydration runs and finds nothing, so
the cache stays empty), and the second access queries the store again: the
guard `if not bot.conversations[user_id]` (line 232) tests emptiness, not
whether hydration already happened, so durable storage is re-queried. -/
theorem c6_counterexample :
    (loadHistory (some []) [] 0).queried = true ∧
    (loadHistory (some []) (loadHistory (some []) [] 0).cache 0).queried = true := by
  exact ⟨rfl, rfl⟩

/-- Claim C6, amended.  An access queries the durable store exactly when the
store is reachable and the user's in-memory cache is empty.  Hence once an
access leaves a non-empty cache for the user, the next access does not query
durable storage and returns the cache unchanged; only when hydration finds no
stored turns (leaving the cache empty) does a later access query again. -/
theorem c6_amended (coll : Option (List Doc)) (cache : List CTurn) (uid : Nat)
    (h : (loadHistory coll cache uid).cache ≠ []) :
    ((loadHistory coll cache uid).queried = (coll.isSome && cache.isEmpty)) ∧
    (loadHistory coll (loadHistory coll cache uid).cache uid).queried = false ∧
    (loadHistory coll (loadHistory coll cache uid).cache uid).cache =
      (loadHistory coll cache uid).cache := by
  match coll with
  | none => exact ⟨rfl, rfl, rfl⟩
  | some store =>
    by_cases hc : cache.isEmpty
    · simp only [loadHistory, if_pos hc] at h ⊢
      have h' : (hydrateDocs store uid).isEmpty = false :=
        by simpa [List.isEmpty_iff] using h
      simp [h', hc]
    · simp only [loadHistory, if_neg hc] at h ⊢
      simp [hc]

/-- Claim C6 amended, witness: a store with one document for the user. -/
theorem c6_amended_witness :
    ((loadHistory (some [⟨0, "p", "r", 0⟩]) [] 0).queried =
      ((some [(⟨0, "p", "r", 0⟩ : Doc)]).isSome && ([] : List CTurn).isEmpty)) ∧
    (loadHistory (some [⟨0, "p", "r", 0⟩])
      (loadHistory (some [⟨0, "p", "r", 0⟩]) [] 0).cache 0).queried = false ∧
    (loadHistory (some [⟨0, "p", "r", 0⟩])
      (loadHistory (some [⟨0, "p", "r", 0⟩]) [] 0).cache 0).cache =
      (loadHistory (some [⟨0, "p", "r", 0⟩]) [] 0).cache :=
  c6_amended (some [⟨0, "p", "r", 0⟩]) [] 0 (by decide)

/-! ## C7: clear empties both tiers and never raises -/

/-- Deleting a user's documents leaves nothing of that user to find. -/
theorem filter_after_delete (store : List Doc) (uid : Nat) :
    ((store.filter (fun d => !(d.user_id == uid))).filter
      (fun d => d.user_id == uid)) = [] := by
  induction store with
  | nil => rfl
  | cons d ds ih =>
    by_cases h : d.user_id = uid <;>
      simp [List.filter_cons, h, ih]

/-- Claim C7.  In both durable-store reachability states — unreachable
(`none`, the startup-failure path where every Mongo call is skipped) and
reachable (`some store`) — `/clearhistory` empties the user's in-memory
history, deletes the user's durable records when the store is reachable, and
a history access performed afterwards returns the empty sequence.  The
embedding of `clearhistory` is a total function in both states: no error
reaches the caller. -/
theorem c7_clear (store : List Doc) (cache : List CTurn) (uid : Nat) :
    (clearHistory none cache uid).1 = [] ∧
    (clearHistory none cache uid).2 = none ∧
    (loadHistory (clearHistory none cache uid).2
      (clearHistory none cache uid).1 uid).history = [] ∧
    (clearHistory (some store) cache uid).1 = [] ∧
    (clearHistory (some store) cache uid).2 =
      some (store.filter (fun d => !(d.user_id == uid))) ∧
    (loadHistory (clearHistory (some store) cache uid).2
      (clearHistory (some store) cache uid).1 uid).history = [] := by
  refine ⟨rfl, rfl, rfl, rfl, rfl, ?_⟩
  simp only [clearHistory, Option.map_some, loadHistory, List.isEmpty_nil, if_pos]
  simp [hydrateDocs, filter_after_delete, takeLast, sortDesc]

/-! ## Reminder Scheduler (src/main.py lines 82-122, 776-794)

`check_reminders` runs every 60 seconds.  One tick queries all records with
`reminder_time <= now` and iterates them inside a single `try`: the user is
resolved via `get_user`/`fetch_user` (a failed fetch raises), an unresolved
guild or channel is skipped silently, `channel.send` is attempted with only
`discord.Forbidden` caught and logged, and then `delete_one` removes the
record.  Any other exception propagates to the outer `except`, which ends the
whole tick, leaving the failing record and all records after it untouched. -/

/-- A document of the `reminders` collection. -/
structure Reminder where
  id : Nat
  user_id : Nat
  guild_id : Nat
  channel_id : Nat
  note : String
  reminder_time : Int
  deriving DecidableEq, Repr

/-- Outcome of `channel.send` for one reminder: success, a
`discord.Forbidden` failure (caught and logged, line 109-110), or any other
exception (uncaught by the inner handler). -/
inductive SendResult
  | ok
  | forbidden
  | otherError
  deriving DecidableEq, Repr

/-- The external platform as seen by one tick: whether
`get_user`/`fetch_user` succeeds, whether the guild and channel resolve, and
what `channel.send` does, per reminder id. -/
structure TickEnv where
  resolveUser : Nat → Bool
  resolveGuild : Nat → Bool
  resolveChannel : Nat → Nat → Bool
  sendResult : Nat → SendResult

/-- Observable effects of a tick, in order of occurrence. -/
inductive TickEvent
  | sent (id : Nat)
  | sendFailedLogged (id : Nat)
  | deleted (id : Nat)
  | tickError
  deriving DecidableEq, Repr

/-- Process the due reminders of one tick in order (the body of the `for`
loop, lines 89-113, inside the single `try` of lines 86-115).  Returns the
events in order, the ids deleted from the durable store, and whether the tick
was ended by an uncaught exception. -/
def processDue (env : TickEnv) : List Reminder → List TickEvent × List Nat × Bool
  | [] => ([], [], false)
  | r :: rest =>
    if !env.resolveUser r.user_id then
      ([.tickError], [], true)
    else if !env.resolveGuild r.guild_id then
      processDue env rest
    else if !env.resolveChannel r.guild_id r.channel_id then
      processDue env rest
    else
      match env.sendResult r.id with
      | .otherError => ([.tickError], [], true)
      | .ok =>
        (.sent r.id :: .deleted r.id :: (processDue env rest).1,
         r.id :: (processDue env rest).2.1, (processDue env rest).2.2)
      | .forbidden =>
        (.sendFailedLogged r.id :: .deleted r.id :: (processDue env rest).1,
         r.id :: (processDue env rest).2.1, (processDue env rest).2.2)

/-- The reminders a tick at time `now` queries:
`find({"reminder_time": {"$lte": now}})`. -/
def dueOf (store : List Reminder) (now : Int) : List Reminder :=
  store.filter (fun r => decide (r.reminder_time ≤ now))

/-- One full tick of `check_reminders`: process the due reminders and remove
the deleted ids from the durable store. -/
def runTick (env : TickEnv) (store : List Reminder) (now : Int) :
    List TickEvent × List Reminder :=
  ((processDue env (dueOf store now)).1,
   store.filter (fun r => !(decide (r.id ∈ (processDue env (dueOf store now)).2.1))))

/-- The event a successfully-resolved dispatch attempt emits: `sent` on
success, `sendFailedLogged` when `channel.send` raises `Forbidden`. -/
def dispatchEvent (env : TickEnv) (r : Reminder) : TickEvent :=
  match env.sendResult r.id with
  | .ok => .sent r.id
  | _ => .sendFailedLogged r.id

/-- Does handling reminder `r` raise an exception that the loop body does not
catch (a failed user fetch, or a `channel.send` failure other than
`Forbidden` on a resolvable guild and channel)? -/
def stepAborts (env : TickEnv) (r : Reminder) : Bool :=
  !env.resolveUser r.user_id ||
    (env.resolveGuild r.guild_id && env.resolveChannel r.guild_id r.channel_id &&
      decide (env.sendResult r.id = .otherError))

/-! ### Tick lemmas -/

/-- Processing distributes over append as long as the first part does not
abort the tick. -/
theorem processDue_append (env : TickEnv) (l₁ l₂ : List Reminder)
    (h : (processDue env l₁).2.2 = false) :
    processDue env (l₁ ++ l₂) =
      ((processDue env l₁).1 ++ (processDue env l₂).1,
       (processDue env l₁).2.1 ++ (processDue env l₂).2.1,
       (processDue env l₂).2.2) := by
  induction l₁ with
  | nil => simp [processDue]
  | cons r rest ih =>
    by_cases hu : env.resolveUser r.user_id
    · by_cases hg : env.resolveGuild r.guild_id
      · by_cases hc : env.resolveChannel r.guild_id r.channel_id
        · cases hs : env.sendResult r.id
          · simp only [processDue, hu, hg, hc, hs, Bool.not_true, Bool.false_eq_true,
              if_false, List.cons_append, List.append_eq] at h ⊢
            rw [ih h]
          · simp only [processDue, hu, hg, hc, hs, Bool.not_true, Bool.false_eq_true,
              if_false, List.cons_append, List.append_eq] at h ⊢
            rw [ih h]
          · simp only [processDue, hu, hg, hc, hs, Bool.not_true, Bool.false_eq_true,
              if_false] at h
            exact absurd h (by decide)
        · simp only [processDue, hu, hg, hc, Bool.not_true, Bool.false_eq_true,
            if_false, Bool.not_false, if_true, List.cons_append] at h ⊢
          exact ih h
      · simp only [processDue, hu, hg, Bool.not_true, Bool.false_eq_true, if_false,
          Bool.not_false, if_true, List.cons_append] at h ⊢
        exact ih h
    · simp only [processDue, Bool.not_eq_true] at hu
      simp only [processDue, hu, Bool.not_false, if_true] at h
      exact absurd h (by decide)

/-- A reminder id that does not occur in the processed list generates no
dispatch event and is never deleted. -/
theorem processDue_not_mem (env : TickEnv) (l : List Reminder) (i : Nat)
    (h : i ∉ l.map Reminder.id) :
    (processDue env l).1.count (.sent i) = 0 ∧
    (processDue env l).1.count (.sendFailedLogged i) = 0 ∧
    i ∉ (processDue env l).2.1 := by
  induction l with
  | nil => exact ⟨rfl, rfl, List.not_mem_nil i⟩
  | cons r rest ih =>
    simp only [List.map_cons, List.mem_cons, not_or] at h
    obtain ⟨hne, hrest⟩ := h
    have ihr := ih hrest
    by_cases hu : env.resolveUser r.user_id
    · by_cases hg : env.resolveGuild r.guild_id
      · by_cases hc : env.resolveChannel r.guild_id r.channel_id
        · cases hs : env.sendResult r.id <;>
            simp_all [processDue, List.count_cons, Ne.symm hne]
        · simpa [processDue, hu, hg, hc] using ihr
      · simpa [processDue, hu, hg] using ihr
    · simp only [Bool.not_eq_true] at hu
      simp [processDue, hu, List.count_cons]

/-! ## C2: due reminders are dispatched once and deleted, send failure or not -/

/-- Claim C2.  Consider a tick at time `now` and a due reminder `r`
(`reminder_time ≤ now`, so `r` is in the tick's query result, split as
`pre ++ r :: post`) whose user, guild and channel all resolve, whose
`channel.send` either succeeds or fails with `Forbidden` (the only send
failure the loop body handles; any other exception is claim C10's case), and
which is reached (the reminders before it do not abort the tick).  The tick
emits exactly one dispatch event for `r` — `sent` on success,
`sendFailedLogged` on a `Forbidden` send failure alike — immediately followed
by its deletion, and `r` is removed from the durable store in that same tick.
There is no retry state: a later tick cannot dispatch `r` again.  (The claim's
"at most 60 seconds" is the fixed poll interval of `tasks.loop(seconds=60)`;
the embedding proves dispatch-and-removal within the tick that first sees the
reminder due.) -/
theorem c2_dispatch (env : TickEnv) (store pre post : List Reminder) (r : Reminder)
    (now : Int)
    (hsplit : dueOf store now = pre ++ r :: post)
    (hpre : (processDue env pre).2.2 = false)
    (huser : env.resolveUser r.user_id = true)
    (hguild : env.resolveGuild r.guild_id = true)
    (hchan : env.resolveChannel r.guild_id r.channel_id = true)
    (hsend : env.sendResult r.id ≠ .otherError)
    (hfresh : r.id ∉ (pre ++ post).map Reminder.id) :
    (runTick env store now).1 =
      (processDue env pre).1 ++ dispatchEvent env r ::
        TickEvent.deleted r.id :: (processDue env post).1 ∧
    (runTick env store now).1.count (dispatchEvent env r) = 1 ∧
    (processDue env (dueOf store now)).2.1 =
      (processDue env pre).2.1 ++ r.id :: (processDue env post).2.1 ∧
    r ∉ (runTick env store now).2 := by
  have hfresh' := hfresh
  simp only [List.map_append, List.mem_append, not_or] at hfresh'
  obtain ⟨hpreid, hpostid⟩ := hfresh'
  have hmain : processDue env (dueOf store now) =
      ((processDue env pre).1 ++ dispatchEvent env r ::
        TickEvent.deleted r.id :: (processDue env post).1,
       (processDue env pre).2.1 ++ r.id :: (processDue env post).2.1,
       (processDue env post).2.2) := by
    rw [hsplit, processDue_append env pre (r :: post) hpre]
    cases hs : env.sendResult r.id
    · simp [processDue, huser, hguild, hchan, hs, dispatchEvent]
    · simp [processDue, huser, hguild, hchan, hs, dispatchEvent]
    · exact absurd hs hsend
  have hcount : (processDue env (dueOf store now)).1.count (dispatchEvent env r) = 1 := by
    rw [hmain]
    have hp := processDue_not_mem env pre r.id hpreid
    have hq := processDue_not_mem env post r.id hpostid
    cases hs : env.sendResult r.id
    · simp only [dispatchEvent, hs, List.count_append, List.count_cons]
      simp [hp.1, hq.1]
    · simp only [dispatchEvent, hs, List.count_append, List.count_cons]
      simp [hp.2.1, hq.2.1]
    · exact absurd hs hsend
  have hdel : r.id ∈ (processDue env (dueOf store now)).2.1 := by
    rw [hmain]
    exact List.mem_append_right _ (List.mem_cons_self _ _)
  refine ⟨by rw [runTick, hmain], by rw [runTick]; exact hcount, by rw [hmain], ?_⟩
  intro hr
  rw [runTick] at hr
  rcases List.mem_filter.mp hr with ⟨-, hkeep⟩
  simp only [Bool.not_eq_true', decide_eq_false_iff_not] at hkeep
  exact hkeep hdel

/-- A platform where everything resolves and every send succeeds. -/
def tickEnvOk : TickEnv :=
  { resolveUser := fun _ => true, resolveGuild := fun _ => true,
    resolveChannel := fun _ _ => true, sendResult := fun _ => .ok }

/-- A concrete reminder, due at time 0. -/
def reminder1 : Reminder :=
  { id := 1, user_id := 10, guild_id := 20, channel_id := 30,
    note := "water the plants", reminder_time := 0 }

/-- Claim C2, witness: a store holding one reminder due at time 0, processed
by a tick at time 5 on a fully-resolving platform. -/
theorem c2_dispatch_witness :
    (runTick tickEnvOk [reminder1] 5).1 =
      (processDue tickEnvOk []).1 ++ dispatchEvent tickEnvOk reminder1 ::
        TickEvent.deleted reminder1.id :: (processDue tickEnvOk []).1 ∧
    (runTick tickEnvOk [reminder1] 5).1.count (dispatchEvent tickEnvOk reminder1) = 1 ∧
    (processDue tickEnvOk (dueOf [reminder1] 5)).2.1 =
      (processDue tickEnvOk []).2.1 ++ reminder1.id :: (processDue tickEnvOk []).2.1 ∧
    reminder1 ∉ (runTick tickEnvOk [reminder1] 5).2 :=
  c2_dispatch tickEnvOk [reminder1] [] [] reminder1 5 (by decide) rfl rfl rfl rfl
    (by decide) (by decide)

/-! ## C10: an uncaught error ends the tick and deletes nothing further -/

/-- Claim C10.  Consider a tick whose due list splits as `pre ++ r :: post`,
where the reminders of `pre` are processed without aborting and handling `r`
raises an error the loop body does not catch — the user fetch fails, or
`channel.send` fails with something other than `Forbidden` (`stepAborts`).
The whole tick stops at `r`: the events are exactly those of `pre` followed
by the logged tick error, nothing is deleted beyond the deletions of `pre`,
and `r` together with every remaining due reminder of `post` stays in the
durable store, to be queried again (still due) at the next tick. -/
theorem c10_abort (env : TickEnv) (store pre post : List Reminder) (r : Reminder)
    (now : Int)
    (hsplit : dueOf store now = pre ++ r :: post)
    (hpre : (processDue env pre).2.2 = false)
    (habort : stepAborts env r = true)
    (hdisj : ∀ x ∈ r :: post, x.id ∉ pre.map Reminder.id) :
    processDue env (dueOf store now) =
      ((processDue env pre).1 ++ [TickEvent.tickError], (processDue env pre).2.1, true) ∧
    (∀ x ∈ r :: post, x ∈ store → x ∈ (runTick env store now).2) := by
  have hhead : processDue env (r :: post) = ([.tickError], [], true) := by
    simp only [stepAborts, Bool.or_eq_true, Bool.and_eq_true, decide_eq_true_eq,
      Bool.not_eq_true'] at habort
    by_cases hu : env.resolveUser r.user_id
    · rcases habort with hu' | ⟨⟨hg, hc⟩, hs⟩
      · rw [hu] at hu'; exact absurd hu' (by decide)
      · simp [processDue, hu, hg, hc, hs]
    · simp only [Bool.not_eq_true] at hu
      simp [processDue, hu]
  have hmain : processDue env (dueOf store now) =
      ((processDue env pre).1 ++ [TickEvent.tickError], (processDue env pre).2.1, true) := by
    rw [hsplit, processDue_append env pre (r :: post) hpre, hhead]
    simp
  refine ⟨hmain, fun x hx hxs => ?_⟩
  refine List.mem_filter.mpr ⟨hxs, ?_⟩
  have hnd := (processDue_not_mem env pre x.id (hdisj x hx)).2.2
  simp only [hmain]
  simpa using hnd

/-- A platform where the user fetch raises for every user id. -/
def tickEnvUserGone : TickEnv :=
  { resolveUser := fun _ => false, resolveGuild := fun _ => true,
    resolveChannel := fun _ _ => true, sendResult := fun _ => .ok }

/-- Claim C10, witness: the single due reminder's user fetch fails, the tick
aborts, and the reminder survives in the store. -/
theorem c10_abort_witness :
    processDue tickEnvUserGone (dueOf [reminder1] 5) =
      ((processDue tickEnvUserGone []).1 ++ [TickEvent.tickError],
       (processDue tickEnvUserGone []).2.1, true) ∧
    (∀ x ∈ reminder1 :: ([] : List Reminder), x ∈ [reminder1] →
      x ∈ (runTick tickEnvUserGone [reminder1] 5).2) :=
  c10_abort tickEnvUserGone [reminder1] [] [] reminder1 5 (by decide) rfl rfl
    (by decide)

/-! ## Timestamps and time zones (src/main.py lines 24, 87, 312, 782)

A Python `datetime` is either naive (no tzinfo; pymongo stores it as a UTC
instant as-is) or aware (tzinfo attached; pymongo converts it to the UTC
instant).  We carry the UTC instant in seconds plus the civil offset in
minutes for aware values.  `PH_TIMEZONE` is Asia/Manila, UTC+8
(offset 480 minutes). -/

/-- A Python datetime value as relevant to storage and comparison. -/
inductive PyDatetime
  | naive (instant : Int)
  | aware (instant : Int) (offsetMin : Int)
  deriving DecidableEq, Repr

/-- The UTC instant a stored or compared datetime denotes (what MongoDB
actually stores and compares). -/
def PyDatetime.toInstant : PyDatetime → Int
  | .naive i => i
  | .aware i _ => i

/-- Is the value an aware datetime in the fixed UTC+8 civil zone? -/
def isPHAware : PyDatetime → Bool
  | .aware _ o => decide (o = 480)
  | .naive _ => false

/-- `datetime.now(PH_TIMEZONE)` at UTC instant `t`. -/
def nowPH (t : Int) : PyDatetime := .aware t 480

/-- The creation timestamp written with each conversation turn
(line 312: `datetime.now(PH_TIMEZONE)`). -/
def convTimestamp (t : Int) : PyDatetime := nowPH t

/-- The dispatch loop's `now` (line 87: `datetime.now(PH_TIMEZONE)`). -/
def reminderCheckNow (t : Int) : PyDatetime := nowPH t

/-- The due timestamp `/remindme` writes (line 782:
`datetime.utcnow() + timedelta(minutes=minutes)` — a *naive* UTC value). -/
def remindmeDue (t : Int) (minutes : Int) : PyDatetime := .naive (t + minutes * 60)

/-- MongoDB's `$lte` comparison of stored datetimes: on UTC instants. -/
def mongoLe (a b : PyDatetime) : Bool := decide (a.toInstant ≤ b.toInstant)

/-! ## C3 theorems -/

/-- Claim C3, counterexample.  The reminder due timestamp written by
`/remindme` is not normalized to the UTC+8 civil zone: it is a naive UTC
datetime (`datetime.utcnow() + timedelta(...)`), unlike the dispatch loop's
`now` and the conversation-turn timestamps, which are UTC+8-aware.  At the
concrete input (schedule at instant 0 for 5 minutes) the stored due value is
naive, refuting "every stored timestamp ... is normalized to the same fixed
civil time zone (UTC+8)". -/
theorem c3_counterexample :
    isPHAware (remindmeDue 0 5) = false ∧
    isPHAware (reminderCheckNow 0) = true ∧
    isPHAware (convTimestamp 0) = true := by
  exact ⟨rfl, rfl, rfl⟩

/-- Claim C3, amended.  Conversation-turn creation timestamps and the
dispatch loop's `now` are aware datetimes in the fixed UTC+8 zone, but the
reminder due timestamp written by `/remindme` is a naive UTC datetime, not
normalized to UTC+8.  Nevertheless the durable store compares underlying UTC
instants (pymongo converts aware values to UTC and treats naive values as
UTC), so the scheduler's `now` and stored due times do not drift relative to
each other: a reminder scheduled at instant `t` for `m` minutes is due at a
tick whose `now` is instant `u` exactly when `t + m * 60 ≤ u`. -/
theorem c3_amended (t u m : Int) :
    isPHAware (convTimestamp t) = true ∧
    isPHAware (reminderCheckNow t) = true ∧
    remindmeDue t m = PyDatetime.naive (t + m * 60) ∧
    isPHAware (remindmeDue t m) = false ∧
    (mongoLe (remindmeDue t m) (reminderCheckNow u) = true ↔ t + m * 60 ≤ u) := by
  refine ⟨rfl, rfl, rfl, rfl, ?_⟩
  simp [mongoLe, PyDatetime.toInstant, remindmeDue, reminderCheckNow, nowPH]

/-! ## Assistant Orchestrator (src/main.py lines 179-317)

The `/ask` handler after the deferral and a granted rate-limit admission:
creator-question short-circuit, language detection, history hydration, prompt
build, the completion-API call, reply-target resolution with the not-found
fallback, and the dual write-back.  The completion API's response and the
platform's behavior are environment parameters. -/

/-- Python's `str.strip()`: remove leading and trailing whitespace.  (Defined
over the character list so that it evaluates inside the kernel.) -/
def strTrim (s : String) : String :=
  ⟨((s.data.dropWhile (fun c => c.isWhitespace)).reverse.dropWhile
      (fun c => c.isWhitespace)).reverse⟩

/-- Python's `str.lower()` on the characters the source compares. -/
def strLower (s : String) : String := ⟨s.data.map Char.toLower⟩

/-- The exact-match creator-attribution phrases (line 201). -/
def creatorQuestions : List String :=
  ["who made you", "who created you", "who created this bot", "who made this bot"]

/-- The fixed language-directive mapping (lines 215-227); unknown or
undetected codes map to the empty directive. -/
def langInstruction (code : String) : String :=
  if code = "tl" then "Please respond in Tagalog."
  else if code = "es" then "Por favor responde en español."
  else if code = "fr" then "Veuillez répondre en français."
  else if code = "ja" then "日本語で答えてください。"
  else if code = "ko" then "한국어로 답변해 주세요."
  else if code = "zh" then "请用中文回答。"
  else if code = "ru" then "Пожалуйста, отвечайте на русском языке."
  else if code = "ar" then "من فضلك أجب بالعربية."
  else if code = "vi" then "Vui lòng trả lời bằng tiếng Việt."
  else if code = "th" then "กรุณาตอบเป็นภาษาไทย"
  else if code = "id" then "Silakan jawab dalam bahasa Indonesia"
  else ""

/-- Prompt construction (lines 243-247): system instruction with the language
directive, each history turn as a User/Assistant line pair in order, then the
new prompt line. -/
def buildPrompt (lang : String) (history : List CTurn) (prompt : String) : String :=
  (history.foldl
    (fun acc m => acc ++ "User: " ++ m.user ++ "\nAssistant: " ++ m.assistant ++ "\n")
    ("You are a helpful and friendly AI assistant named Neroniel AI. " ++ lang)) ++
    "User: " ++ prompt ++ "\nAssistant:"

/-- How the orchestrator sent its response: as a threaded reply to the
tracked message, or as a fresh unthreaded message. -/
inductive SendKind
  | fresh
  | threaded
  deriving DecidableEq, Repr

/-- The user-visible outcome of one `/ask` invocation past admission. -/
inductive AskOutcome
  | creatorReply (msgId : Nat)
  | apiError (msg : String)
  | success (msgId : Nat) (kind : SendKind)
  deriving DecidableEq, Repr

/-- The per-user/channel state touched by one `/ask` invocation: the user's
in-memory conversation cache, the durable collection (`none` when Mongo is
unreachable), and the reply-chain pointer `bot.last_message_id[(user,channel)]`. -/
structure AskState where
  cache : List CTurn
  store : Option (List Doc)
  lastMsg : Option Nat
  deriving DecidableEq, Repr

/-- The environment of one `/ask` invocation: the completion API's HTTP
status, error body text, optional `error` payload field and generated text,
whether `fetch_message` on the tracked reply target succeeds (`false` models
`discord.NotFound`), the ids the platform assigns to a fresh followup message
and to a threaded reply, and the clock used for the stored timestamp. -/
structure AskEnv where
  status : Nat
  body : String
  errorField : Option String
  aiText : String
  fetchOk : Bool
  freshId : Nat
  threadReplyId : Nat
  now : Int
  deriving DecidableEq, Repr

/-- One `/ask` invocation past the rate-limit gate (lines 197-317).
Branches in source order: the creator-question short-circuit (lines 200-207,
which updates the reply-chain pointer and touches no history), history
hydration (lines 230-240), the non-200 status check (lines 267-270), the
`error` payload check (lines 273-275), then the success path: resolve the
reply target, falling back to a fresh unthreaded message when the tracked
message fetch raises `NotFound` (lines 287-296), update the reply-chain
pointer (line 299), and append the turn to the cache and the durable store
(lines 301-313). -/
def askStep (env : AskEnv) (st : AskState) (uid : Nat) (prompt : String) :
    AskState × AskOutcome :=
  if strLower (strTrim prompt) ∈ creatorQuestions then
    ({ st with lastMsg := some env.freshId }, .creatorReply env.freshId)
  else
    let acc := loadHistory st.store st.cache uid
    if env.status ≠ 200 then
      ({ st with cache := acc.cache },
       .apiError ("❌ API returned error code " ++ toString env.status ++ ": `" ++
         env.body ++ "`"))
    else
      match env.errorField with
      | some m =>
        ({ st with cache := acc.cache }, .apiError ("❌ Error from AI API: " ++ m))
      | none =>
        let sendRes : Nat × SendKind :=
          match st.lastMsg with
          | some _ => if env.fetchOk then (env.threadReplyId, .threaded)
                      else (env.freshId, .fresh)
          | none => (env.freshId, .fresh)
        ({ cache := acc.cache ++ [{ user := prompt, assistant := strTrim env.aiText }],
           store := st.store.map (fun s => s ++
             [{ user_id := uid, prompt := prompt, response := strTrim env.aiText,
                timestamp := env.now }]),
           lastMsg := some sendRes.1 },
         .success sendRes.1 sendRes.2)

/-- A history access is idempotent on cache and history: re-reading after an
access changes nothing observable. -/
theorem loadHistory_idem (coll : Option (List Doc)) (cache : List CTurn) (uid : Nat) :
    (loadHistory coll (loadHistory coll cache uid).cache uid).history =
      (loadHistory coll cache uid).history ∧
    (loadHistory coll (loadHistory coll cache uid).cache uid).cache =
      (loadHistory coll cache uid).cache := by
  match coll with
  | none => exact ⟨rfl, rfl⟩
  | some store =>
    by_cases hc : cache.isEmpty
    · simp only [loadHistory, if_pos hc]
      by_cases hh : (hydrateDocs store uid).isEmpty
      · simp [hh]
      · simp [hh]
    · simp only [loadHistory, if_neg hc]
      simp [hc]

/-! ## C8: a non-success completion status aborts without appending -/

/-- The durable turn already on record before the failing call. -/
def oldDoc : Doc :=
  { user_id := 7, prompt := "old prompt", response := "old reply", timestamp := 0 }

/-- A completion API answering HTTP 500 with body "boom". -/
def apiErrEnv : AskEnv :=
  { status := 500, body := "boom", errorField := none, aiText := "",
    fetchOk := true, freshId := 1, threadReplyId := 2, now := 0 }

/-- A user whose in-memory cache is empty while `oldDoc` sits in the durable
store. -/
def apiErrState : AskState :=
  { cache := [], store := some [oldDoc], lastMsg := none }

/-- Claim C8, counterexample.  With an empty in-memory cache and one
pre-existing durable turn, an `/ask` call whose completion API answers HTTP
500 leaves the in-memory cache *changed* — lazy hydration (which runs before
the API call) has populated it from the durable store — refuting "the user's
conversation history (in-memory cache and durable store) is unchanged from
before the call".  The outcome is still the formatted error carrying the
status code, and nothing was appended. -/
theorem c8_counterexample :
    (askStep apiErrEnv apiErrState 7 "hello").1.cache =
      [{ user := "old prompt", assistant := "old reply" }] ∧
    (askStep apiErrEnv apiErrState 7 "hello").1.cache ≠ apiErrState.cache ∧
    apiErrState.cache = [] ∧
    (askStep apiErrEnv apiErrState 7 "hello").2 =
      .apiError "❌ API returned error code 500: `boom`" := by
  refine ⟨rfl, by decide, rfl, rfl⟩

/-- Claim C8, amended.  On a non-success completion status the user receives
the formatted error message carrying that status code and the operation
stops: the durable store and the reply-chain pointer are unchanged, no turn
is appended, and a history read afterwards returns exactly what it returned
before.  The in-memory cache changes only by lazy hydration of pre-existing
durable records (it becomes exactly the hydrated cache the history read
produced before the API call), never by the new turn. -/
theorem c8_amended (env : AskEnv) (st : AskState) (uid : Nat) (prompt : String)
    (hn : strLower (strTrim prompt) ∉ creatorQuestions)
    (hs : env.status ≠ 200) :
    (askStep env st uid prompt).2 =
      .apiError ("❌ API returned error code " ++ toString env.status ++ ": `" ++
        env.body ++ "`") ∧
    (askStep env st uid prompt).1.store = st.store ∧
    (askStep env st uid prompt).1.lastMsg = st.lastMsg ∧
    (askStep env st uid prompt).1.cache = (loadHistory st.store st.cache uid).cache ∧
    (loadHistory st.store (askStep env st uid prompt).1.cache uid).history =
      (loadHistory st.store st.cache uid).history := by
  have hidem := loadHistory_idem st.store st.cache uid
  simp [askStep, hn, hs, hidem.1]

/-- Claim C8 amended, witness: HTTP 500 with one durable turn on record. -/
theorem c8_amended_witness :
    (askStep apiErrEnv apiErrState 7 "hello").2 =
      .apiError ("❌ API returned error code " ++ toString apiErrEnv.status ++
        ": `" ++ apiErrEnv.body ++ "`") ∧
    (askStep apiErrEnv apiErrState 7 "hello").1.store = apiErrState.store ∧
    (askStep apiErrEnv apiErrState 7 "hello").1.lastMsg = apiErrState.lastMsg ∧
    (askStep apiErrEnv apiErrState 7 "hello").1.cache =
      (loadHistory apiErrState.store apiErrState.cache 7).cache ∧
    (loadHistory apiErrState.store
      (askStep apiErrEnv apiErrState 7 "hello").1.cache 7).history =
      (loadHistory apiErrState.store apiErrState.cache 7).history :=
  c8_amended apiErrEnv apiErrState 7 "hello" (by decide) (by decide)

/-! ## C9: not-found reply target falls back to a fresh message -/

/-- Claim C9.  When the reply-chain pointer for (user, channel) holds message
id `X` but fetching message `X` raises `NotFound`, a successful `/ask`
invocation sends a fresh unthreaded message instead, reports no error to the
user (the outcome is a success, not an `apiError`), and afterwards the
reply-chain pointer holds the fresh message's id — which, the platform
assigning a new id, is not `X`. -/
theorem c9_replyFallback (env : AskEnv) (st : AskState) (uid : Nat) (prompt : String)
    (X : Nat)
    (hn : strLower (strTrim prompt) ∉ creatorQuestions)
    (hs : env.status = 200) (he : env.errorField = none)
    (hl : st.lastMsg = some X) (hf : env.fetchOk = false)
    (hx : env.freshId ≠ X) :
    (askStep env st uid prompt).2 = .success env.freshId .fresh ∧
    (∀ m, (askStep env st uid prompt).2 ≠ .apiError m) ∧
    (askStep env st uid prompt).1.lastMsg = some env.freshId ∧
    (askStep env st uid prompt).1.lastMsg ≠ some X := by
  simp [askStep, hn, hs, he, hl, hf, hx]

/-- A successful completion whose tracked reply target no longer exists:
fetching it raises `NotFound`, and the platform assigns id 7 to the fresh
followup message. -/
def fallbackEnv : AskEnv :=
  { status := 200, body := "", errorField := none, aiText := "sure",
    fetchOk := false, freshId := 7, threadReplyId := 9, now := 0 }

/-- A user/channel whose reply-chain pointer still holds the vanished
message id 42. -/
def fallbackState : AskState :=
  { cache := [{ user := "q", assistant := "a" }], store := none, lastMsg := some 42 }

/-- Claim C9, witness: tracked id 42 vanished; the fresh message gets id 7. -/
theorem c9_replyFallback_witness :
    (askStep fallbackEnv fallbackState 3 "how are you").2 = .success 7 .fresh ∧
    (∀ m, (askStep fallbackEnv fallbackState 3 "how are you").2 ≠ .apiError m) ∧
    (askStep fallbackEnv fallbackState 3 "how are you").1.lastMsg = some 7 ∧
    (askStep fallbackEnv fallbackState 3 "how are you").1.lastMsg ≠ some 42 :=
  c9_replyFallback fallbackEnv fallbackState 3 "how are you" 42
    (by decide) rfl rfl rfl rfl (by decide)

end BotCore
